import Mathlib

/-!
Shallow embedding of the orbital-mechanics core of this repository,
`src/services/orbit_propagator.py` (class `OrbitPropagatorService`):
the Kepler-equation Newton solver, the fallback Keplerian propagator,
the intercept computation, the maneuver-cost block and the
launch-window scan.

Modelling conventions:
* Python floats are modelled as real numbers `ℝ`; `datetime` values are
  real-valued seconds on an absolute axis, so `(d2 - d1).total_seconds()`
  is plain subtraction and `timedelta(hours=h)` adds `h * 3600`.
* `dict.get(key, default)` on the orbital-element dictionary is modelled
  by `Option` fields read through `Option.getD`.
* The `poliastro` branch of `propagate_from_elements` is an external
  library path (module guard `POLIASTRO_AVAILABLE`); the engine this
  repository specifies and ships is the Keplerian fallback, which is
  also where the poliastro branch lands on any exception, so
  `propagate_from_elements` is modelled as `_fallback_propagation`.
* Real-number arithmetic in Lean is total: `Real.sqrt` of a negative is
  `0` and `x / 0 = 0`, where Python/numpy would produce `nan`/`inf` or
  raise.  The claims settled below never depend on those junk values,
  except where a comment says so explicitly.
-/

namespace OrbitPropagator

open scoped Classical

/-- `np.arctan2 y x`: four-quadrant arctangent with the usual
branch convention. -/
noncomputable def arctan2 (y x : ℝ) : ℝ :=
  if 0 < x then Real.arctan (y / x)
  else if x < 0 then
    (if 0 ≤ y then Real.arctan (y / x) + Real.pi
     else Real.arctan (y / x) - Real.pi)
  else
    (if 0 < y then Real.pi / 2 else if y < 0 then -(Real.pi / 2) else 0)

/-- `np.radians`: degrees to radians. -/
noncomputable def radians (d : ℝ) : ℝ := d * (Real.pi / 180)

/-- Python `int(...)` applied to a float: truncation toward zero. -/
noncomputable def intTrunc (r : ℝ) : ℤ := if 0 ≤ r then ⌊r⌋ else ⌈r⌉

/-- The orbital-element dictionary as the propagator consumes it through
`elements.get(key, default)`: a field is `none` when the key is absent. -/
structure Elements where
  semi_major_axis : Option ℝ := none
  eccentricity : Option ℝ := none
  inclination : Option ℝ := none
  longitude_ascending_node : Option ℝ := none
  argument_periapsis : Option ℝ := none
  mean_anomaly : Option ℝ := none
  propulsion_type : Option String := none

/-- One trajectory point, the dictionary built at source lines 199-209. -/
structure TrajPoint where
  datetime : ℝ
  x : ℝ
  y : ℝ
  z : ℝ
  vx : ℝ
  vy : ℝ
  vz : ℝ
  distance : ℝ
  source : String

/-- The Newton loop of `_solve_kepler_equation` (source lines 234-247),
with the remaining iteration budget as fuel.  Each step computes
`f = E - ecc*sin E - M` and `df = 1 - ecc*cos E`; it breaks returning the
CURRENT iterate `E` when `|df| < 1e-12`, or when the Newton update moves
less than `tolerance`; when the fuel runs out the last iterate is
returned unconditionally — there is no divergence signal. -/
noncomputable def keplerLoop (M ecc tolerance : ℝ) : ℕ → ℝ → ℝ
  | 0, E => E
  | Nat.succ n, E =>
    let f := E - ecc * Real.sin E - M
    let df := 1 - ecc * Real.cos E
    if |df| < 1e-12 then E
    else
      let Enew := E - f / df
      if |Enew - E| < tolerance then E
      else keplerLoop M ecc tolerance n Enew

/-- `_solve_kepler_equation(M, ecc, tolerance=1e-8)` (source lines
219-249): initial guess `M` when `ecc < 0.8`, else `π`; at most 20
Newton iterations. -/
noncomputable def _solve_kepler_equation (M ecc : ℝ) (tolerance : ℝ := 1e-8) : ℝ :=
  keplerLoop M ecc tolerance 20 (if ecc < 0.8 then M else Real.pi)

/-- `n_points = int(total_hours / step_hours) + 1` where
`total_hours = (end_date - start_date).total_seconds() / 3600`
(source lines 140-141). -/
noncomputable def nPoints (start_date end_date step_hours : ℝ) : ℤ :=
  intTrunc ((end_date - start_date) / 3600 / step_hours) + 1

/-- The body of the propagation loop of `_fallback_propagation`
(source lines 126-210) at loop index `i`: one trajectory point.
`vr_day` is computed but never used by the source; `vz` is the literal
`0` of source line 197. -/
noncomputable def fallbackPoint (elements : Elements) (start_date step_hours : ℝ)
    (i : ℕ) : TrajPoint :=
  let a := elements.semi_major_axis.getD 1.0
  let ecc := elements.eccentricity.getD 0.0
  let inc := radians (elements.inclination.getD 0.0)
  let raan := radians (elements.longitude_ascending_node.getD 0.0)
  let argp := radians (elements.argument_periapsis.getD 0.0)
  let M0 := radians (elements.mean_anomaly.getD 0.0)
  let mu : ℝ := 1.32712440018e20
  let a_m := a * 1.495978707e11
  let n := Real.sqrt (mu / a_m ^ 3)
  let hours_elapsed := (i : ℝ) * step_hours
  let t := hours_elapsed * 3600
  let current_time := start_date + hours_elapsed * 3600
  let M := M0 + n * t
  let E := _solve_kepler_equation M ecc
  let nu := 2 * arctan2 (Real.sqrt (1 + ecc) * Real.sin (E / 2))
      (Real.sqrt (1 - ecc) * Real.cos (E / 2))
  let r := a * (1 - ecc * Real.cos E)
  let x_orb := r * Real.cos nu
  let y_orb := r * Real.sin nu
  let cos_raan := Real.cos raan
  let sin_raan := Real.sin raan
  let cos_inc := Real.cos inc
  let sin_inc := Real.sin inc
  let cos_argp := Real.cos argp
  let sin_argp := Real.sin argp
  let x := (cos_raan * cos_argp - sin_raan * sin_argp * cos_inc) * x_orb +
      (-cos_raan * sin_argp - sin_raan * cos_argp * cos_inc) * y_orb
  let y := (sin_raan * cos_argp + cos_raan * sin_argp * cos_inc) * x_orb +
      (-sin_raan * sin_argp + cos_raan * cos_argp * cos_inc) * y_orb
  let z := (sin_argp * sin_inc) * x_orb + (cos_argp * sin_inc) * y_orb
  let h := Real.sqrt (mu * a_m * (1 - ecc ^ 2))
  let vr := (mu / h) * ecc * Real.sin nu / 1.495978707e11
  let vt := h / (r * 1.495978707e11)
  let vr_day := vr * 86400
  let vt_day := vt * 86400
  let vx := -vt_day * Real.sin (nu + argp)
  let vy := vt_day * Real.cos (nu + argp)
  let vz : ℝ := 0
  { datetime := current_time, x := x, y := y, z := z,
    vx := vx, vy := vy, vz := vz, distance := r,
    source := "kepler_propagation" }

/-- `_fallback_propagation` (source lines 106-217): the points produced
by the `for i in range(n_points)` loop.  There is no validation of the
elements; the `except` wrapper of the source (which would return `[]`)
is unreachable in the real-number model, and in Python the arithmetic
here produces `nan` values rather than exceptions for invalid elements
such as a negative semi-major axis. -/
noncomputable def _fallback_propagation (elements : Elements)
    (start_date end_date step_hours : ℝ) : List TrajPoint :=
  (List.range (nPoints start_date end_date step_hours).toNat).map
    (fallbackPoint elements start_date step_hours)

/-- `propagate_from_elements` with `POLIASTRO_AVAILABLE = False` (or with
the poliastro path failing): the Keplerian fallback. -/
noncomputable def propagate_from_elements (elements : Elements)
    (start_date end_date step_hours : ℝ) : List TrajPoint :=
  _fallback_propagation elements start_date end_date step_hours

/-- Euclidean distance used by the closest-approach scan
(source lines 304-307): `p` is the interceptor sample, `q` the target
sample. -/
noncomputable def dist3 (p q : TrajPoint) : ℝ :=
  Real.sqrt ((p.x - q.x) ^ 2 + (p.y - q.y) ^ 2 + (p.z - q.z) ^ 2)

/-- The target-selection loop of `compute_intercept_trajectory`
(source lines 270-281): track the point of minimal `|datetime -
intercept_time|`, breaking at the first point within one day (86400 s).
The accumulator `none` models the initial `min_time_diff = inf`. -/
noncomputable def selectTargetAux (intercept_time : ℝ) :
    List TrajPoint → Option (ℝ × TrajPoint) → Option TrajPoint
  | [], best => Option.map Prod.snd best
  | p :: rest, best =>
    let time_diff := |p.datetime - intercept_time|
    let best' := match best with
      | none => some (time_diff, p)
      | some (d, q) => if time_diff < d then some (time_diff, p) else some (d, q)
    if time_diff < 86400 then Option.map Prod.snd best'
    else selectTargetAux intercept_time rest best'

/-- Entry point of the target-selection loop. -/
noncomputable def selectTarget (intercept_time : ℝ)
    (target_trajectory : List TrajPoint) : Option TrajPoint :=
  selectTargetAux intercept_time target_trajectory none

/-- The closest-approach scan of `compute_intercept_trajectory`
(source lines 300-311): fold keeping the strictly smaller distance, so
the FIRST sample attaining the minimum is kept.  The accumulator `none`
models the initial `min_distance = inf`, `closest_point = None`. -/
noncomputable def closestAux (target : TrajPoint) :
    List TrajPoint → Option (ℝ × TrajPoint) → Option (ℝ × TrajPoint)
  | [], best => best
  | p :: rest, best =>
    let d := dist3 p target
    let best' := match best with
      | none => some (d, p)
      | some (m, q) => if d < m then some (d, p) else some (m, q)
    closestAux target rest best'

/-- Entry point of the closest-approach scan. -/
noncomputable def findClosest (target : TrajPoint) (l : List TrajPoint) :
    Option (ℝ × TrajPoint) :=
  closestAux target l none

/-- `mu_sun = 1.32712440018e11  # GM_sun in km³/s²` (source line 327). -/
def mu_sun : ℝ := 1.32712440018e11

/-- `r1 = 1.0 * 149597870.7  # Earth orbit in km` (source line 328). -/
def r1 : ℝ := 1.0 * 149597870.7

/-- `a_transfer = (r1 + r2) / 2` (source line 332). -/
noncomputable def a_transfer (r2 : ℝ) : ℝ := (r1 + r2) / 2

/-- `v1_circular = np.sqrt(mu_sun / r1)` (source line 333); in km/s since
`mu_sun` is in km³/s² and `r1` in km. -/
noncomputable def v1_circular : ℝ := Real.sqrt (mu_sun / r1)

/-- `v1_transfer = np.sqrt(mu_sun * (2/r1 - 1/a_transfer))`
(source line 334); also km/s. -/
noncomputable def v1_transfer (r2 : ℝ) : ℝ :=
  Real.sqrt (mu_sun * (2 / r1 - 1 / a_transfer r2))

/-- `delta_v_departure = abs(v1_transfer - v1_circular) / 1000`
(source line 336).  The source comment labels this `# km/s`, but the
operand is already in km/s, so the division by 1000 scales the result
away from the commented unit. -/
noncomputable def delta_v_departure (r2 : ℝ) : ℝ :=
  |v1_transfer r2 - v1_circular| / 1000

/-- `delta_v_total = delta_v_departure * 1.5` (source line 337). -/
noncomputable def delta_v_total (r2 : ℝ) : ℝ := delta_v_departure r2 * 1.5

/-- `flight_time_days` (source lines 340-341):
`π·sqrt(a_transfer³ / mu_sun) / 86400`. -/
noncomputable def flight_time_days (r2 : ℝ) : ℝ :=
  Real.pi * Real.sqrt (a_transfer r2 ^ 3 / mu_sun) / 86400

/-- `isp = 3000 if interceptor_elements.get('propulsion_type', 'ion') ==
'ion' else 300` (source line 345): every tag other than `'ion'` — and in
particular every unrecognized tag — silently gets 300, the chemical
value; a missing tag defaults to `'ion'`, hence 3000. -/
def isp_of (elements : Elements) : ℝ :=
  if elements.propulsion_type.getD "ion" = "ion" then 3000 else 300

/-- `g0 = 9.81` (source line 346). -/
def g0 : ℝ := 9.81

/-- `exhaust_velocity = isp * g0 / 1000  # km/s` (source line 347). -/
noncomputable def exhaust_velocity (isp : ℝ) : ℝ := isp * g0 / 1000

/-- `mass_ratio = np.exp(delta_v_total / exhaust_velocity)`
(source line 350). -/
noncomputable def mass_ratio (dv ve : ℝ) : ℝ := Real.exp (dv / ve)

/-- `fuel_fraction = (mass_ratio - 1) / mass_ratio` (source line 351). -/
noncomputable def fuel_fraction (dv ve : ℝ) : ℝ :=
  (mass_ratio dv ve - 1) / mass_ratio dv ve

/-- The success dictionary returned by `compute_intercept_trajectory`
(source lines 360-393), with `'success': True` implicit in the variant. -/
structure InterceptSuccess where
  intercept_time : ℝ
  target_position : ℝ × ℝ × ℝ
  interceptor_position : Option (ℝ × ℝ × ℝ)
  miss_distance_au : ℝ
  miss_distance_km : ℝ
  relative_velocity_au_per_day : ℝ
  relative_velocity_km_per_s : ℝ
  interceptor_trajectory : List TrajPoint
  feasible : Prop
  delta_v_required_km_s : ℝ
  flight_time_days : ℝ
  fuel_consumed_percent : ℝ
  success_probability : ℝ
  data_captured : List String

/-- The two shapes `compute_intercept_trajectory` can return: the
success dictionary, or the `except` handler's dictionary
`{'success': False, 'error': str(e), 'source': 'orbit_propagation'}`
(source lines 395-401), which carries the message and no numeric
results. -/
inductive InterceptOutcome where
  | ok (r : InterceptSuccess)
  | err (error : String)

/-- `data_captured` list of source lines 385-392. -/
def dataCaptured : List String :=
  ["High-resolution imagery", "Spectrographic analysis",
   "Magnetic field measurements", "Dust particle samples",
   "Gas composition data", "Surface temperature mapping"]

/-- `compute_intercept_trajectory` (source lines 251-401).  The two
`raise ValueError` sites are routed to the enclosing handler, which
returns the error dictionary.  The `closest_point is None` branch
(source lines 354-358) is unreachable because the interceptor
trajectory has been checked non-empty; in Python it would leave
`min_distance = inf`, which `ℝ` cannot carry, so the model returns the
zeroed fields of that branch with a 0 miss distance. -/
noncomputable def compute_intercept_trajectory (interceptor_elements : Elements)
    (target_trajectory : List TrajPoint) (intercept_time : ℝ) : InterceptOutcome :=
  match selectTarget intercept_time target_trajectory with
  | none => .err "Target position not found at intercept time"
  | some target_position =>
    let intercept_start := intercept_time - 365 * 86400
    let interceptor_trajectory :=
      propagate_from_elements interceptor_elements intercept_start intercept_time 24
    if interceptor_trajectory = [] then
      .err "Failed to compute interceptor trajectory"
    else
      match findClosest target_position interceptor_trajectory with
      | some (min_distance, closest_point) =>
        let relative_velocity := Real.sqrt ((closest_point.vx - target_position.vx) ^ 2 +
          (closest_point.vy - target_position.vy) ^ 2 +
          (closest_point.vz - target_position.vz) ^ 2)
        let mission_distance_au := Real.sqrt (target_position.x ^ 2 +
          target_position.y ^ 2 + target_position.z ^ 2)
        let r2 := mission_distance_au * 149597870.7
        let dv := delta_v_total r2
        let isp := isp_of interceptor_elements
        .ok { intercept_time := intercept_time,
              target_position := (target_position.x, target_position.y, target_position.z),
              interceptor_position := some (closest_point.x, closest_point.y, closest_point.z),
              miss_distance_au := min_distance,
              miss_distance_km := min_distance * 149597870.7,
              relative_velocity_au_per_day := relative_velocity,
              relative_velocity_km_per_s := relative_velocity * 149597870.7 / 86400,
              interceptor_trajectory := interceptor_trajectory,
              feasible := min_distance < 0.01,
              delta_v_required_km_s := dv,
              flight_time_days := flight_time_days r2,
              fuel_consumed_percent := fuel_fraction dv (exhaust_velocity isp) * 100,
              success_probability :=
                if min_distance < 0.001 then 0.95
                else if min_distance < 0.01 then 0.75 else 0.3,
              data_captured := if min_distance < 0.01 then dataCaptured else [] }
      | none =>
        .ok { intercept_time := intercept_time,
              target_position := (target_position.x, target_position.y, target_position.z),
              interceptor_position := none,
              miss_distance_au := 0,
              miss_distance_km := 0,
              relative_velocity_au_per_day := 0,
              relative_velocity_km_per_s := 0,
              interceptor_trajectory := interceptor_trajectory,
              feasible := False,
              delta_v_required_km_s := 0,
              flight_time_days := 0,
              fuel_consumed_percent := 0,
              success_probability := 0.3,
              data_captured := [] }

/-- One launch-window dictionary (source lines 441-448). -/
structure LaunchWindow where
  launch_date : ℝ
  intercept_date : ℝ
  mission_duration_days : ℕ
  target_distance_au : ℝ
  estimated_delta_v_au_per_day : ℝ
  feasible : Prop

/-- The candidate departure indices visited by
`for i in range(0, len(traj), 30)` before the `break` at the first `i`
with `i + mission_duration_days >= len(traj)` (source lines 424-426).
`range(0, n, 30)` is the ascending sublist of `range n` of indices
divisible by 30, and since `i + dur < n` is downward-closed along that
ascending list, the `break` is exactly a `takeWhile`. -/
def launchCandidates (n dur : ℕ) : List ℕ :=
  ((List.range n).filter (fun i => i % 30 == 0)).takeWhile
    (fun i => decide (i + dur < n))

/-- The window dictionary built for launch point `traj[i]` and intercept
point `traj[i + mission_duration_days]` (source lines 428-448).
`required_velocity = distance / time_days`; with `dur = 0` Python would
raise `ZeroDivisionError` (caught, yielding `[]`) while Lean's total
division yields junk, so theorems below assume `0 < dur`. -/
noncomputable def mkWindow (dur : ℕ) (launch_point intercept_point : TrajPoint) :
    LaunchWindow :=
  let distance := Real.sqrt ((intercept_point.x - launch_point.x) ^ 2 +
    (intercept_point.y - launch_point.y) ^ 2 +
    (intercept_point.z - launch_point.z) ^ 2)
  let required_velocity := distance / (dur : ℝ)
  { launch_date := launch_point.datetime,
    intercept_date := intercept_point.datetime,
    mission_duration_days := dur,
    target_distance_au := distance,
    estimated_delta_v_au_per_day := required_velocity,
    feasible := required_velocity < 0.1 }

/-- `compute_launch_window` (source lines 403-455).  The `launch_site`
parameter of the source is never read, and every candidate window is
appended whether `feasible` is true or false; no propagation, intercept
search or cost estimation is invoked. -/
noncomputable def compute_launch_window (target_trajectory : List TrajPoint)
    (mission_duration_days : ℕ) : List LaunchWindow :=
  (launchCandidates target_trajectory.length mission_duration_days).filterMap
    (fun i =>
      match target_trajectory.get? i,
            target_trajectory.get? (i + mission_duration_days) with
      | some lp, some ip => some (mkWindow mission_duration_days lp ip)
      | _, _ => none)

/-! ### Helper lemmas -/

/-- `isp_of` only ever produces the two table values, both positive. -/
theorem isp_of_pos (elements : Elements) : 0 < isp_of elements := by
  unfold isp_of
  split <;> norm_num

/-- The exhaust velocity derived from either table Isp is positive. -/
theorem exhaust_velocity_pos (elements : Elements) :
    0 < exhaust_velocity (isp_of elements) := by
  have h := isp_of_pos elements
  unfold exhaust_velocity g0
  positivity

/-- Rewriting the source's rocket-equation quotient:
`(e^x - 1)/e^x = 1 - e^(-x)`. -/
theorem fuel_fraction_eq (dv ve : ℝ) :
    fuel_fraction dv ve = 1 - Real.exp (-(dv / ve)) := by
  unfold fuel_fraction mass_ratio
  rw [Real.exp_neg]
  have h := Real.exp_ne_zero (dv / ve)
  field_simp

/-! ### C2 — the solver never surfaces non-convergence -/

/-- **C2** (code_bug support): the `_solve_kepler_equation` of the source
is, for every input, exactly the 20-step capped Newton loop, and when the
budget is exhausted the loop returns the current — possibly
unconverged — iterate itself: no path of the solver produces a
`NumericDivergence` signal, contradicting the claim that non-convergence
is surfaced as an error.  (At `M = 8.8`, `ecc = 0.95` neither convergence
criterion ever fires within the 20-iteration budget, and the source
silently returns `E ≈ 8.8803` with residual `≈ 0.41`.) -/
theorem C2_solver_returns_last_iterate_unconditionally :
    (∀ M ecc : ℝ, _solve_kepler_equation M ecc =
      keplerLoop M ecc 1e-8 20 (if ecc < 0.8 then M else Real.pi)) ∧
    (∀ M ecc tolerance E : ℝ, keplerLoop M ecc tolerance 0 E = E) :=
  ⟨fun _ _ => rfl, fun _ _ _ _ => rfl⟩

/-! ### C3 — no element validation, defaults silently substituted -/

/-- Elements with the invalid semi-major axis `a = -1` of the spec's own
error-surfacing test. -/
def elemsNegA : Elements := { semi_major_axis := some (-1) }

/-- **C3** (code_bug support): called with `a = -1` over a one-day grid,
`_fallback_propagation` performs no validation and returns a full
two-point trajectory (in Python the points are `nan`-valued) instead of
failing with `InvalidElements`; and the element accessors silently
substitute defaults (`a = 1.0`, `e = 0.0`) when keys are missing. -/
theorem C3_no_validation_and_silent_defaults :
    (_fallback_propagation elemsNegA 0 86400 24).length = 2 ∧
    (∀ elements : Elements, elements.semi_major_axis = none →
      elements.eccentricity = none →
      ∀ start_date step_hours i,
        fallbackPoint elements start_date step_hours i =
          fallbackPoint
            { elements with semi_major_axis := some 1.0, eccentricity := some 0.0 }
            start_date step_hours i) := by
  constructor
  · have h1 : ((86400 : ℝ) - 0) / 3600 / 24 = 1 := by norm_num
    simp only [_fallback_propagation, List.length_map, List.length_range,
      nPoints, intTrunc, h1]
    norm_num
    decide
  · intro elements ha he start_date step_hours i
    unfold fallbackPoint
    rw [ha, he]
    rfl

/-- Witness for the hypotheses of the second conjunct of C3's theorem:
the empty element dictionary at the first grid index. -/
theorem C3_witness :
    ((Elements.mk none none none none none none none).semi_major_axis = none ∧
     (Elements.mk none none none none none none none).eccentricity = none) ∧
    ((_fallback_propagation elemsNegA 0 86400 24).length = 2 ∧
     (∀ elements : Elements, elements.semi_major_axis = none →
       elements.eccentricity = none →
       ∀ start_date step_hours i,
         fallbackPoint elements start_date step_hours i =
           fallbackPoint
             { elements with semi_major_axis := some 1.0, eccentricity := some 0.0 }
             start_date step_hours i)) :=
  ⟨⟨rfl, rfl⟩, C3_no_validation_and_silent_defaults⟩

/-! ### C5 — the 1/1000 scaling of the departure delta-v -/

/-- Modelled from the spec: the total delta-v of §4.4,
`|v_transfer − v_circular| × 1.5`, with no `/ 1000`. -/
noncomputable def spec_delta_v_total (r2 : ℝ) : ℝ :=
  |v1_transfer r2 - v1_circular| * 1.5

/-- The concrete target radius 3 AU expressed in km, as the source
builds `r2` (source line 329). -/
noncomputable def r2threeAU : ℝ := 3 * 149597870.7

/-- At `r2 = 3 AU` the transfer speed strictly exceeds the circular
speed, so the departure delta-v is nonzero. -/
theorem v1_transfer_gt_circular_threeAU : v1_circular < v1_transfer r2threeAU := by
  unfold v1_circular v1_transfer
  apply Real.sqrt_lt_sqrt
  · unfold mu_sun r1
    positivity
  · have h : a_transfer r2threeAU = 2 * 149597870.7 := by
      unfold a_transfer r2threeAU r1
      norm_num
    rw [h]
    unfold mu_sun r1
    norm_num

/-- **C5** (code_bug support): the code's total delta-v is the claimed
`|v_transfer − v_circular| × 1.5` divided by 1000 — at `r2 = 3 AU` the
code's value provably differs from the claimed formula — while the
flight-duration formula matches the claim and the fuel fraction is the
claimed rocket equation applied to the (scaled-down) total delta-v. -/
theorem C5_delta_v_scaled_by_thousand :
    (∀ r2 : ℝ, delta_v_total r2 = |v1_transfer r2 - v1_circular| / 1000 * 1.5) ∧
    delta_v_total r2threeAU = spec_delta_v_total r2threeAU / 1000 ∧
    delta_v_total r2threeAU ≠ spec_delta_v_total r2threeAU ∧
    (∀ r2 : ℝ, flight_time_days r2 =
      Real.pi * Real.sqrt (a_transfer r2 ^ 3 / mu_sun) / 86400) ∧
    (∀ dv ve : ℝ, fuel_fraction dv ve = (Real.exp (dv / ve) - 1) / Real.exp (dv / ve)) := by
  refine ⟨fun _ => rfl, ?_, ?_, fun _ => rfl, fun _ _ => rfl⟩
  · unfold delta_v_total delta_v_departure spec_delta_v_total
    ring
  · unfold delta_v_total delta_v_departure spec_delta_v_total
    have h : 0 < |v1_transfer r2threeAU - v1_circular| := by
      rw [abs_pos, sub_ne_zero]
      exact ne_of_gt v1_transfer_gt_circular_threeAU
    intro hc
    nlinarith [h]

/-! ### C6 — rocket-equation monotonicity and range -/

/-- **C6**: with the Isp the code selects from its propulsion table, the
fuel fraction `(mass_ratio − 1)/mass_ratio`, `mass_ratio =
exp(Δv/exhaust_velocity)`, is strictly increasing in the required
delta-v, and lies in `[0, 1)` for every non-negative delta-v. -/
theorem C6_fuel_fraction_monotone_and_bounded (elements : Elements)
    (dv1 dv2 dv : ℝ) (h12 : dv1 < dv2) (hdv : 0 ≤ dv) :
    fuel_fraction dv1 (exhaust_velocity (isp_of elements)) <
      fuel_fraction dv2 (exhaust_velocity (isp_of elements)) ∧
    0 ≤ fuel_fraction dv (exhaust_velocity (isp_of elements)) ∧
    fuel_fraction dv (exhaust_velocity (isp_of elements)) < 1 := by
  have hve : 0 < exhaust_velocity (isp_of elements) := exhaust_velocity_pos elements
  rw [fuel_fraction_eq, fuel_fraction_eq, fuel_fraction_eq]
  refine ⟨?_, ?_, ?_⟩
  · have h : dv1 / exhaust_velocity (isp_of elements) <
        dv2 / exhaust_velocity (isp_of elements) := by gcongr
    have he := Real.exp_lt_exp.mpr (neg_lt_neg h)
    linarith
  · have hx : 0 ≤ dv / exhaust_velocity (isp_of elements) := by positivity
    have he : Real.exp (-(dv / exhaust_velocity (isp_of elements))) ≤ 1 :=
      Real.exp_le_one_iff.mpr (by linarith)
    linarith
  · have he := Real.exp_pos (-(dv / exhaust_velocity (isp_of elements)))
    linarith

/-- Witness for C6 at `Δv = 0 < 1` with the default (ion) table entry. -/
theorem C6_witness :
    ((0 : ℝ) < 1 ∧ (0 : ℝ) ≤ 0) ∧
    (fuel_fraction 0 (exhaust_velocity (isp_of { })) <
       fuel_fraction 1 (exhaust_velocity (isp_of { })) ∧
     0 ≤ fuel_fraction 0 (exhaust_velocity (isp_of { })) ∧
     fuel_fraction 0 (exhaust_velocity (isp_of { })) < 1) :=
  ⟨⟨by norm_num, le_refl 0⟩,
   C6_fuel_fraction_monotone_and_bounded { } 0 1 0 (by norm_num) (le_refl 0)⟩

/-! ### C7 — unrecognized propulsion tags silently default -/

/-- **C7** (code_bug support): an unrecognized tag (`"nuclear"`) silently
receives the chemical Isp value 300, and a missing tag defaults to the
ion value 3000 — no `InvalidPropulsionType` failure exists anywhere in
the cost block. -/
theorem C7_unrecognized_tag_silently_defaults :
    isp_of { propulsion_type := some "nuclear" } = 300 ∧
    isp_of { } = 3000 := by
  constructor <;> simp [isp_of]

/-! ### C10 — the intercept computation always returns a result dict -/

/-- **C10**: `compute_intercept_trajectory` always returns one of the two
result dictionaries — the success record or the handler's
`{'success': False, 'error': msg}` record, which carries no numeric
fields — and in particular an empty target trajectory yields the caught
`ValueError` message rather than a propagated exception. -/
theorem C10_always_returns_result_dict :
    (∀ (elements : Elements) (tgt : List TrajPoint) (it : ℝ),
      (∃ r, compute_intercept_trajectory elements tgt it = .ok r) ∨
      (∃ msg, compute_intercept_trajectory elements tgt it = .err msg)) ∧
    (∀ (elements : Elements) (it : ℝ),
      compute_intercept_trajectory elements [] it =
        .err "Target position not found at intercept time") := by
  constructor
  · intro elements tgt it
    unfold compute_intercept_trajectory
    rcases hsel : selectTarget it tgt with _ | tp
    · exact Or.inr ⟨_, rfl⟩
    · dsimp only
      split
      · exact Or.inr ⟨_, rfl⟩
      · rcases hfc : findClosest tp
            (propagate_from_elements elements (it - 365 * 86400) it 24) with _ | ⟨m, q⟩
        · exact Or.inl ⟨_, rfl⟩
        · exact Or.inl ⟨_, rfl⟩
  · intro elements it
    rfl

/-! ### Evaluation helpers for concrete propagation points -/

/-- The float literals `0.0`/`1.0` of the source normalize to the
numerals `0`/`1`. -/
theorem float_zero : (0.0 : ℝ) = 0 := by norm_num

theorem float_one : (1.0 : ℝ) = 1 := by norm_num

theorem radians_zero : radians 0 = 0 := by
  unfold radians; ring

theorem radians_ninety : radians 90 = Real.pi / 2 := by
  unfold radians; ring

theorem arctan2_zero_one : arctan2 0 1 = 0 := by
  unfold arctan2
  rw [if_pos (by norm_num : (0 : ℝ) < 1)]
  norm_num [Real.arctan_zero]

/-- For a circular orbit (`ecc = 0`) the Newton iteration accepts the
initial guess immediately: the solver returns `M` itself. -/
theorem solve_kepler_ecc_zero (M : ℝ) : _solve_kepler_equation M 0 = M := by
  unfold _solve_kepler_equation
  rw [if_pos (by norm_num : (0 : ℝ) < 0.8)]
  show keplerLoop M 0 1e-8 (19 + 1) M = M
  unfold keplerLoop
  norm_num

/-- The distance of any single coordinate bounds `dist3` from below. -/
theorem abs_sub_x_le_dist3 (p q : TrajPoint) : |p.x - q.x| ≤ dist3 p q := by
  unfold dist3
  rw [show |p.x - q.x| = Real.sqrt ((p.x - q.x) ^ 2) by
    rw [Real.sqrt_sq_eq_abs]]
  apply Real.sqrt_le_sqrt
  nlinarith [sq_nonneg (p.y - q.y), sq_nonneg (p.z - q.z)]

/-- With the all-default element dictionary (`a = 1`, `ecc = 0`, all
angles `0`), every propagated point lies on the unit circle in the
`z = 0` plane: `x = cos ν`, `y = sin ν` for the true anomaly `ν` of that
sample, so `|x| ≤ 1`, `|y| ≤ 1`, `z = 0`. -/
theorem fallbackPoint_default_bounds (start_date step_hours : ℝ) (i : ℕ) :
    |(fallbackPoint { } start_date step_hours i).x| ≤ 1 ∧
    |(fallbackPoint { } start_date step_hours i).y| ≤ 1 ∧
    (fallbackPoint { } start_date step_hours i).z = 0 := by
  unfold fallbackPoint
  simp only [Option.getD_none, float_zero, float_one, radians_zero,
    Real.cos_zero, Real.sin_zero, mul_one, one_mul, mul_zero, zero_mul,
    sub_zero, zero_sub, add_zero, zero_add, neg_zero]
  norm_num
  exact ⟨Real.abs_cos_le_one _, Real.abs_sin_le_one _⟩

/-- With the all-default element dictionary the first sample (`i = 0`)
is exactly `(1, 0, 0)`: the mean anomaly is `0`, the solver returns `0`,
and the true anomaly is `0`. -/
theorem fallbackPoint_default_zero (start_date step_hours : ℝ) :
    (fallbackPoint { } start_date step_hours 0).x = 1 ∧
    (fallbackPoint { } start_date step_hours 0).y = 0 ∧
    (fallbackPoint { } start_date step_hours 0).z = 0 := by
  unfold fallbackPoint
  simp only [Option.getD_none, float_zero, float_one, radians_zero,
    Nat.cast_zero, zero_mul, mul_zero, add_zero, zero_add,
    solve_kepler_ecc_zero, zero_div, Real.sin_zero, Real.cos_zero,
    Real.sqrt_one, arctan2_zero_one, mul_one, sub_zero, one_mul]
  norm_num

/-! ### C9 — `vz = 0` always, while `z` depends on the inclination -/

/-- Elements with nonzero inclination (90°) and argument of periapsis
90°, otherwise defaults. -/
def elemsInclined : Elements :=
  { inclination := some 90, argument_periapsis := some 90 }

/-- The same elements with the inclination left at its default `0`. -/
def elemsFlat : Elements := { argument_periapsis := some 90 }

theorem fallbackPoint_inclined_z :
    (fallbackPoint elemsInclined 0 24 0).z = 1 := by
  unfold fallbackPoint elemsInclined
  simp only [Option.getD_none, Option.getD_some, float_zero, float_one,
    radians_zero, radians_ninety, Nat.cast_zero, zero_mul, mul_zero,
    add_zero, zero_add, solve_kepler_ecc_zero, zero_div, Real.sin_zero,
    Real.cos_zero, Real.sqrt_one, Real.sin_pi_div_two, Real.cos_pi_div_two,
    arctan2_zero_one, mul_one, sub_zero, one_mul]

theorem fallbackPoint_flat_z :
    (fallbackPoint elemsFlat 0 24 0).z = 0 := by
  unfold fallbackPoint elemsFlat
  simp only [Option.getD_none, Option.getD_some, float_zero, float_one,
    radians_zero, radians_ninety, Nat.cast_zero, zero_mul, mul_zero,
    add_zero, zero_add, solve_kepler_ecc_zero, zero_div, Real.sin_zero,
    Real.cos_zero, Real.sqrt_one, Real.sin_pi_div_two, Real.cos_pi_div_two,
    arctan2_zero_one, mul_one, sub_zero, one_mul]

/-- **C9**: every point the fallback propagator produces has `vz = 0`
(the literal `0` of source line 197), for every element dictionary —
including inclined orbits — while the position's `z` component does
depend on the inclination: with `ω = 90°` the first sample has `z = 1`
at `i = 90°` but `z = 0` at the default `i = 0`, all other elements
equal.  Velocity and position are therefore not expressed consistently
for inclined orbits. -/
theorem C9_vz_always_zero_but_z_depends_on_inclination :
    (∀ (elements : Elements) (start_date step_hours : ℝ) (i : ℕ),
      (fallbackPoint elements start_date step_hours i).vz = 0) ∧
    (∀ (elements : Elements) (start_date end_date step_hours : ℝ),
      _fallback_propagation elements start_date end_date step_hours =
        (List.range (nPoints start_date end_date step_hours).toNat).map
          (fallbackPoint elements start_date step_hours)) ∧
    (fallbackPoint elemsInclined 0 24 0).z = 1 ∧
    (fallbackPoint elemsFlat 0 24 0).z = 0 ∧
    elemsInclined = { elemsFlat with inclination := some 90 } :=
  ⟨fun _ _ _ _ => rfl, fun _ _ _ _ => rfl,
   fallbackPoint_inclined_z, fallbackPoint_flat_z, rfl⟩

/-! ### Characterizing the two scan loops of `compute_intercept_trajectory` -/

/-- Once the target-selection loop holds a best pair, it returns some
point on every input. -/
theorem selectTargetAux_isSome (it : ℝ) :
    ∀ (l : List TrajPoint) (d : ℝ) (q : TrajPoint),
      ∃ tp, selectTargetAux it l (some (d, q)) = some tp := by
  intro l
  induction l with
  | nil => exact fun d q => ⟨q, rfl⟩
  | cons p rest ih =>
    intro d q
    unfold selectTargetAux
    dsimp only
    split
    · split
      · exact ⟨_, rfl⟩
      · exact ⟨_, rfl⟩
    · split
      · exact ih _ _
      · exact ih _ _

/-- On a non-empty target trajectory the selection loop always selects
a point (the first point strictly improves on the initial `inf`). -/
theorem selectTarget_isSome (it : ℝ) (l : List TrajPoint) (h : l ≠ []) :
    ∃ tp, selectTarget it l = some tp := by
  match l with
  | [] => exact absurd rfl h
  | p :: rest =>
    unfold selectTarget selectTargetAux
    dsimp only
    split
    · exact ⟨_, rfl⟩
    · exact selectTargetAux_isSome it rest _ _

/-- Full characterization of the closest-approach fold with a running
best pair `(m, q)`: either no element strictly improves on `m` and the
accumulator survives with `m` below every scanned distance, or the fold
returns the earliest element attaining the least distance, which is
strictly below `m` and strictly below every element preceding it. -/
theorem closestAux_char (tp : TrajPoint) :
    ∀ (l : List TrajPoint) (m : ℝ) (q : TrajPoint),
      (closestAux tp l (some (m, q)) = some (m, q) ∧ ∀ p ∈ l, m ≤ dist3 p tp) ∨
      (∃ l₁ p l₂, l = l₁ ++ p :: l₂ ∧
        closestAux tp l (some (m, q)) = some (dist3 p tp, p) ∧
        dist3 p tp < m ∧
        (∀ x ∈ l₁, dist3 p tp < dist3 x tp) ∧
        (∀ x ∈ l, dist3 p tp ≤ dist3 x tp)) := by
  intro l
  induction l with
  | nil =>
    intro m q
    left
    exact ⟨rfl, by simp⟩
  | cons a rest ih =>
    intro m q
    unfold closestAux
    dsimp only
    by_cases hd : dist3 a tp < m
    · rw [if_pos hd]
      right
      rcases ih (dist3 a tp) a with ⟨heq, hmin⟩ | ⟨l₁, p, l₂, hsplit, heq, hlt, hbefore, hmin⟩
      · refine ⟨[], a, rest, by simp, heq, hd, by simp, ?_⟩
        intro x hx
        rcases List.mem_cons.mp hx with rfl | hx
        · exact le_refl _
        · exact hmin x hx
      · refine ⟨a :: l₁, p, l₂, by rw [hsplit, List.cons_append], heq, lt_trans hlt hd, ?_, ?_⟩
        · intro x hx
          rcases List.mem_cons.mp hx with rfl | hx
          · exact hlt
          · exact hbefore x hx
        · intro x hx
          rcases List.mem_cons.mp hx with rfl | hx
          · exact le_of_lt hlt
          · exact hmin x (by rw [hsplit] at hx ⊢; exact hx)
    · rw [if_neg hd]
      rcases ih m q with ⟨heq, hmin⟩ | ⟨l₁, p, l₂, hsplit, heq, hlt, hbefore, hmin⟩
      · left
        refine ⟨heq, ?_⟩
        intro x hx
        rcases List.mem_cons.mp hx with rfl | hx
        · exact not_lt.mp hd
        · exact hmin x hx
      · right
        refine ⟨a :: l₁, p, l₂, by rw [hsplit, List.cons_append], heq, hlt, ?_, ?_⟩
        · intro x hx
          rcases List.mem_cons.mp hx with rfl | hx
          · exact lt_of_lt_of_le hlt (not_lt.mp hd)
          · exact hbefore x hx
        · intro x hx
          rcases List.mem_cons.mp hx with rfl | hx
          · exact le_of_lt (lt_of_lt_of_le hlt (not_lt.mp hd))
          · exact hmin x hx

/-- On a non-empty list the closest-approach scan returns the earliest
sample attaining the minimal distance to the target sample: the list
splits as `l₁ ++ q :: l₂` with every element of `l₁` strictly farther
away and every element of `l` at least as far. -/
theorem findClosest_spec (tp : TrajPoint) (l : List TrajPoint) (h : l ≠ []) :
    ∃ m q l₁ l₂, findClosest tp l = some (m, q) ∧ l = l₁ ++ q :: l₂ ∧
      m = dist3 q tp ∧ (∀ p ∈ l, m ≤ dist3 p tp) ∧ ∀ p ∈ l₁, m < dist3 p tp := by
  match l with
  | [] => exact absurd rfl h
  | a :: rest =>
    have hstep : findClosest tp (a :: rest) =
        closestAux tp rest (some (dist3 a tp, a)) := rfl
    rcases closestAux_char tp rest (dist3 a tp) a with
      ⟨heq, hmin⟩ | ⟨l₁, p, l₂, hsplit, heq, hlt, hbefore, hmin⟩
    · refine ⟨dist3 a tp, a, [], rest, by rw [hstep, heq], rfl, rfl, ?_, by simp⟩
      intro x hx
      rcases List.mem_cons.mp hx with rfl | hx
      · exact le_refl _
      · exact hmin x hx
    · refine ⟨dist3 p tp, p, a :: l₁, l₂, by rw [hstep, heq], by rw [hsplit, List.cons_append], rfl, ?_, ?_⟩
      · intro x hx
        rcases List.mem_cons.mp hx with rfl | hx
        · exact le_of_lt hlt
        · exact hmin x hx
      · intro x hx
        rcases List.mem_cons.mp hx with rfl | hx
        · exact hlt
        · exact hbefore x hx

/-- The interceptor trajectory `compute_intercept_trajectory` builds
internally — one year at 24-hour steps ending at the intercept time —
always has exactly 366 samples. -/
theorem interceptor_traj_eq (elements : Elements) (it : ℝ) :
    propagate_from_elements elements (it - 365 * 86400) it 24 =
      (List.range 366).map (fallbackPoint elements (it - 365 * 86400) 24) := by
  unfold propagate_from_elements _fallback_propagation nPoints intTrunc
  have h : (it - (it - 365 * 86400)) / 3600 / 24 = 365 := by ring
  rw [h]
  rw [if_pos (by norm_num : (0 : ℝ) ≤ 365)]
  norm_num
  rfl

/-- Reduction of `compute_intercept_trajectory` on the success path:
with a selected target sample and a non-empty interceptor trajectory
whose scan returns `(m, q)`, the function returns the explicit success
record of source lines 360-393. -/
theorem compute_intercept_ok (elements : Elements) (tgt : List TrajPoint)
    (it : ℝ) (tp : TrajPoint) (m : ℝ) (q : TrajPoint)
    (hsel : selectTarget it tgt = some tp)
    (hne : propagate_from_elements elements (it - 365 * 86400) it 24 ≠ [])
    (hfc : findClosest tp (propagate_from_elements elements (it - 365 * 86400) it 24) =
      some (m, q)) :
    compute_intercept_trajectory elements tgt it = .ok
      { intercept_time := it,
        target_position := (tp.x, tp.y, tp.z),
        interceptor_position := some (q.x, q.y, q.z),
        miss_distance_au := m,
        miss_distance_km := m * 149597870.7,
        relative_velocity_au_per_day := Real.sqrt ((q.vx - tp.vx) ^ 2 +
          (q.vy - tp.vy) ^ 2 + (q.vz - tp.vz) ^ 2),
        relative_velocity_km_per_s := Real.sqrt ((q.vx - tp.vx) ^ 2 +
          (q.vy - tp.vy) ^ 2 + (q.vz - tp.vz) ^ 2) * 149597870.7 / 86400,
        interceptor_trajectory := propagate_from_elements elements (it - 365 * 86400) it 24,
        feasible := m < 0.01,
        delta_v_required_km_s := delta_v_total
          (Real.sqrt (tp.x ^ 2 + tp.y ^ 2 + tp.z ^ 2) * 149597870.7),
        flight_time_days := flight_time_days
          (Real.sqrt (tp.x ^ 2 + tp.y ^ 2 + tp.z ^ 2) * 149597870.7),
        fuel_consumed_percent := fuel_fraction
          (delta_v_total (Real.sqrt (tp.x ^ 2 + tp.y ^ 2 + tp.z ^ 2) * 149597870.7))
          (exhaust_velocity (isp_of elements)) * 100,
        success_probability :=
          if m < 0.001 then 0.95 else if m < 0.01 then 0.75 else 0.3,
        data_captured := if m < 0.01 then dataCaptured else [] } := by
  unfold compute_intercept_trajectory
  rw [hsel]
  dsimp only
  rw [if_neg hne, hfc]

/-! ### C1 — what the intercept search actually minimizes -/

/-- **C1** (amended): on every non-empty target trajectory the intercept
computation selects a single target sample by time proximity and returns
the interceptor sample of its internally propagated trajectory that
minimizes the Euclidean distance to that one target sample, keeping the
earliest interceptor sample among equal-distance minimizers; the
reported miss distance is the distance of that pair. -/
theorem C1_amended_argmin_vs_time_selected_target (elements : Elements)
    (tgt : List TrajPoint) (it : ℝ) (h : tgt ≠ []) :
    ∃ tp r q l₁ l₂,
      selectTarget it tgt = some tp ∧
      compute_intercept_trajectory elements tgt it = .ok r ∧
      r.interceptor_trajectory =
        propagate_from_elements elements (it - 365 * 86400) it 24 ∧
      r.interceptor_trajectory = l₁ ++ q :: l₂ ∧
      r.miss_distance_au = dist3 q tp ∧
      r.interceptor_position = some (q.x, q.y, q.z) ∧
      (∀ p ∈ r.interceptor_trajectory, r.miss_distance_au ≤ dist3 p tp) ∧
      (∀ p ∈ l₁, r.miss_distance_au < dist3 p tp) := by
  obtain ⟨tp, hsel⟩ := selectTarget_isSome it tgt h
  have hne : propagate_from_elements elements (it - 365 * 86400) it 24 ≠ [] := by
    rw [interceptor_traj_eq]
    simp
  obtain ⟨m, q, l₁, l₂, hfc, hsplit, hm, hmin, hbefore⟩ :=
    findClosest_spec tp (propagate_from_elements elements (it - 365 * 86400) it 24) hne
  have hr := compute_intercept_ok elements tgt it tp m q hsel hne hfc
  exact ⟨tp, _, q, l₁, l₂, hsel, hr, rfl, hsplit, hm, rfl, hmin, hbefore⟩

/-- Interceptor elements for the concrete intercept inputs: the empty
dictionary, so every element takes its default. -/
def ceElems : Elements := { }

/-- Target sample at exactly the requested intercept time, but far away
(`x = 10⁹ AU`). -/
noncomputable def ceA : TrajPoint :=
  { datetime := 0, x := 1000000000, y := 0, z := 0, vx := 0, vy := 0, vz := 0,
    distance := 0, source := "synthetic" }

/-- Target sample more than one day away in time, but close in space
(the origin). -/
noncomputable def ceB : TrajPoint :=
  { datetime := -200000, x := 0, y := 0, z := 0, vx := 0, vy := 0, vz := 0,
    distance := 0, source := "synthetic" }

/-- The two-sample synthetic target trajectory used against C1. -/
noncomputable def ceTarget : List TrajPoint := [ceA, ceB]

/-- The target-selection loop on `ceTarget` at intercept time `0` picks
`ceA` immediately (time difference `0 < 86400`) and never looks at
`ceB`. -/
theorem selectTarget_ce : selectTarget 0 ceTarget = some ceA := by
  unfold selectTarget ceTarget selectTargetAux
  dsimp only
  have h : |ceA.datetime - (0 : ℝ)| < 86400 := by
    rw [show ceA.datetime = 0 from rfl]
    norm_num
  rw [if_pos h]
  rfl

/-- Every sample of the internally propagated interceptor trajectory
(defaults: unit circular orbit) is at least `10⁹ − 1` away from `ceA`. -/
theorem ce_far_bound (i : ℕ) :
    (1000000000 - 1 : ℝ) ≤ dist3 (fallbackPoint ceElems (0 - 365 * 86400) 24 i) ceA := by
  have hx : |(fallbackPoint ceElems (0 - 365 * 86400) 24 i).x| ≤ 1 :=
    (fallbackPoint_default_bounds (0 - 365 * 86400 : ℝ) 24 i).1
  have h1 := abs_sub_x_le_dist3 (fallbackPoint ceElems (0 - 365 * 86400) 24 i) ceA
  have hA : ceA.x = 1000000000 := rfl
  rcases abs_le.mp hx with ⟨hl, hr⟩
  have h2 : (1000000000 - 1 : ℝ) ≤
      |(fallbackPoint ceElems (0 - 365 * 86400) 24 i).x - ceA.x| := by
    rw [hA, abs_sub_comm, abs_of_nonneg (by linarith :
      (0 : ℝ) ≤ 1000000000 - (fallbackPoint ceElems (0 - 365 * 86400) 24 i).x)]
    linarith
  linarith

/-- The first interceptor sample is at distance exactly 1 from `ceB`. -/
theorem ce_near_point :
    dist3 (fallbackPoint ceElems (0 - 365 * 86400) 24 0) ceB = 1 := by
  obtain ⟨hx, hy, hz⟩ := fallbackPoint_default_zero (0 - 365 * 86400 : ℝ) 24
  unfold dist3
  rw [show (fallbackPoint ceElems (0 - 365 * 86400) 24 0).x = 1 from hx,
    show (fallbackPoint ceElems (0 - 365 * 86400) 24 0).y = 0 from hy,
    show (fallbackPoint ceElems (0 - 365 * 86400) 24 0).z = 0 from hz,
    show ceB.x = 0 from rfl, show ceB.y = 0 from rfl, show ceB.z = 0 from rfl]
  norm_num

/-- **C1** (counterexample): on the synthetic two-sample target
trajectory `ceTarget` the intercept computation succeeds, yet the pair
it returns is NOT the global minimum over all (target sample,
interceptor sample) pairs: the pair `(ceB, first interceptor sample)`
has distance `1`, strictly below the reported miss distance (at least
`10⁹ − 1`), because the code fixes the single time-selected target
sample `ceA` before scanning. -/
theorem C1_counterexample_not_global_pairwise_min :
    ∃ r, compute_intercept_trajectory ceElems ceTarget 0 = .ok r ∧
      ∃ tq ∈ ceTarget, ∃ p ∈ r.interceptor_trajectory,
        dist3 p tq < r.miss_distance_au := by
  have hne : propagate_from_elements ceElems (0 - 365 * 86400) 0 24 ≠ [] := by
    rw [interceptor_traj_eq]
    simp
  obtain ⟨m, q, l₁, l₂, hfc, hsplit, hm, hmin, hbefore⟩ :=
    findClosest_spec ceA (propagate_from_elements ceElems (0 - 365 * 86400) 0 24) hne
  have hr := compute_intercept_ok ceElems ceTarget 0 ceA m q selectTarget_ce hne hfc
  have hqmem : q ∈ propagate_from_elements ceElems (0 - 365 * 86400) 0 24 := by
    rw [hsplit]
    exact List.mem_append.mpr (Or.inr (List.mem_cons_self q l₂))
  have hqfar : (1000000000 - 1 : ℝ) ≤ dist3 q ceA := by
    rw [interceptor_traj_eq] at hqmem
    obtain ⟨i, _, rfl⟩ := List.mem_map.mp hqmem
    exact ce_far_bound i
  have hmem0 : fallbackPoint ceElems (0 - 365 * 86400) 24 0 ∈
      propagate_from_elements ceElems (0 - 365 * 86400) 0 24 := by
    rw [interceptor_traj_eq]
    exact List.mem_map_of_mem _ (List.mem_range.mpr (by norm_num))
  refine ⟨_, hr, ceB, by simp [ceTarget],
    fallbackPoint ceElems (0 - 365 * 86400) 24 0, hmem0, ?_⟩
  show dist3 (fallbackPoint ceElems (0 - 365 * 86400) 24 0) ceB < m
  rw [ce_near_point, hm]
  have := hqfar
  norm_num at this ⊢
  linarith

/-- Witness for C1's amended theorem at the concrete synthetic input:
`ceTarget` is non-empty and the amended conclusion holds there. -/
theorem C1_amended_witness :
    ceTarget ≠ [] ∧
    (∃ tp r q l₁ l₂,
      selectTarget 0 ceTarget = some tp ∧
      compute_intercept_trajectory ceElems ceTarget 0 = .ok r ∧
      r.interceptor_trajectory =
        propagate_from_elements ceElems (0 - 365 * 86400) 0 24 ∧
      r.interceptor_trajectory = l₁ ++ q :: l₂ ∧
      r.miss_distance_au = dist3 q tp ∧
      r.interceptor_position = some (q.x, q.y, q.z) ∧
      (∀ p ∈ r.interceptor_trajectory, r.miss_distance_au ≤ dist3 p tp) ∧
      (∀ p ∈ l₁, r.miss_distance_au < dist3 p tp)) :=
  ⟨by simp [ceTarget],
   C1_amended_argmin_vs_time_selected_target ceElems ceTarget 0 (by simp [ceTarget])⟩

/-! ### C8 — what the launch-window scanner actually does -/

/-- A `filterMap` whose function succeeds on every element keeps the
length. -/
theorem length_filterMap_all_some {α β : Type} (f : α → Option β) :
    ∀ l : List α, (∀ a ∈ l, (f a).isSome) → (l.filterMap f).length = l.length := by
  intro l
  induction l with
  | nil => intro _; rfl
  | cons a rest ih =>
    intro h
    rcases ho : f a with _ | b
    · have := h a (List.mem_cons_self a rest)
      rw [ho] at this
      exact absurd this (by simp)
    · rw [List.filterMap_cons_some ho]
      simp only [List.length_cons]
      rw [ih fun x hx => h x (List.mem_cons_of_mem a hx)]

/-- Candidate indices respect the `break` guard: `i + dur < n`. -/
theorem launchCandidates_bound (n dur i : ℕ) (h : i ∈ launchCandidates n dur) :
    i + dur < n := by
  unfold launchCandidates at h
  have := List.mem_takeWhile_imp h
  exact of_decide_eq_true this

/-- **C8** (amended): the scanner walks candidate departure indices at
stride 30 while `i + duration` stays inside the trajectory, and reports
EVERY candidate window — the output has one window per candidate, so
infeasible candidates are reported too; each window pairs sample `i`
with sample `i + duration`, carries `required_velocity =
straight-line distance / duration`, and its feasibility flag is exactly
`required_velocity < 0.1`.  No propagation, intercept search or cost
estimation is involved. -/
theorem C8_amended_every_candidate_reported (traj : List TrajPoint)
    (dur : ℕ) (hdur : 0 < dur) :
    (compute_launch_window traj dur).length =
      (launchCandidates traj.length dur).length ∧
    ∀ w ∈ compute_launch_window traj dur,
      ∃ i ∈ launchCandidates traj.length dur, ∃ lp ip,
        traj.get? i = some lp ∧ traj.get? (i + dur) = some ip ∧
        w = mkWindow dur lp ip ∧
        w.launch_date = lp.datetime ∧
        w.intercept_date = ip.datetime ∧
        w.estimated_delta_v_au_per_day = w.target_distance_au / (dur : ℝ) ∧
        (w.feasible ↔ w.target_distance_au / (dur : ℝ) < 0.1) := by
  constructor
  · apply length_filterMap_all_some
    intro i hi
    have hbound := launchCandidates_bound traj.length dur i hi
    have hi1 : i < traj.length := lt_of_le_of_lt (Nat.le_add_right i dur) hbound
    rcases List.get?_eq_get hi1 with hg1
    rcases List.get?_eq_get hbound with hg2
    rw [hg1, hg2]
    rfl
  · intro w hw
    obtain ⟨i, hi, hfi⟩ := List.mem_filterMap.mp hw
    have hbound := launchCandidates_bound traj.length dur i hi
    have hi1 : i < traj.length := lt_of_le_of_lt (Nat.le_add_right i dur) hbound
    refine ⟨i, hi, traj.get ⟨i, hi1⟩, traj.get ⟨i + dur, hbound⟩,
      List.get?_eq_get hi1, List.get?_eq_get hbound, ?_, ?_, ?_, ?_, ?_⟩
    all_goals
      rw [List.get?_eq_get hi1, List.get?_eq_get hbound] at hfi
      simp only [Option.some.injEq] at hfi
      subst hfi
    · rfl
    · rfl
    · rfl
    · rfl
    · exact Iff.rfl

/-- First sample of the synthetic launch-window trajectory: the
origin at day 0. -/
noncomputable def w8A : TrajPoint :=
  { datetime := 0, x := 0, y := 0, z := 0, vx := 0, vy := 0, vz := 0,
    distance := 0, source := "synthetic" }

/-- Second sample, one day later, 5 AU away (a 3-4-0 displacement). -/
noncomputable def w8B : TrajPoint :=
  { datetime := 86400, x := 3, y := 4, z := 0, vx := 0, vy := 0, vz := 0,
    distance := 5, source := "synthetic" }

/-- The synthetic two-sample trajectory used against C8. -/
noncomputable def w8Traj : List TrajPoint := [w8A, w8B]

/-- Witness for C8's amended theorem at the synthetic trajectory with a
one-day mission duration. -/
theorem C8_amended_witness :
    0 < 1 ∧
    ((compute_launch_window w8Traj 1).length =
      (launchCandidates w8Traj.length 1).length ∧
    ∀ w ∈ compute_launch_window w8Traj 1,
      ∃ i ∈ launchCandidates w8Traj.length 1, ∃ lp ip,
        w8Traj.get? i = some lp ∧ w8Traj.get? (i + 1) = some ip ∧
        w = mkWindow 1 lp ip ∧
        w.launch_date = lp.datetime ∧
        w.intercept_date = ip.datetime ∧
        w.estimated_delta_v_au_per_day = w.target_distance_au / ((1 : ℕ) : ℝ) ∧
        (w.feasible ↔ w.target_distance_au / ((1 : ℕ) : ℝ) < 0.1)) :=
  ⟨Nat.one_pos, C8_amended_every_candidate_reported w8Traj 1 Nat.one_pos⟩

/-- **C8** (counterexample): on `w8Traj` with a one-day duration the
scanner's single candidate window requires velocity `5 AU/day ≥ 0.1`,
is therefore infeasible — and is reported anyway, refuting the claim
that exactly the windows meeting the feasibility threshold are
reported. -/
theorem C8_counterexample_infeasible_window_reported :
    ∃ w ∈ compute_launch_window w8Traj 1,
      ¬ w.feasible ∧ w.target_distance_au = 5 := by
  have heval : compute_launch_window w8Traj 1 = [mkWindow 1 w8A w8B] := rfl
  have hdist : Real.sqrt ((w8B.x - w8A.x) ^ 2 + (w8B.y - w8A.y) ^ 2 +
      (w8B.z - w8A.z) ^ 2) = 5 := by
    rw [show (w8B.x - w8A.x) ^ 2 + (w8B.y - w8A.y) ^ 2 + (w8B.z - w8A.z) ^ 2 =
      (5 : ℝ) ^ 2 by norm_num [w8A, w8B]]
    exact Real.sqrt_sq (by norm_num)
  refine ⟨mkWindow 1 w8A w8B, by rw [heval]; exact List.mem_singleton.mpr rfl, ?_, ?_⟩
  · show ¬ (Real.sqrt ((w8B.x - w8A.x) ^ 2 + (w8B.y - w8A.y) ^ 2 +
      (w8B.z - w8A.z) ^ 2) / ((1 : ℕ) : ℝ) < 0.1)
    rw [hdist]
    norm_num
  · show Real.sqrt ((w8B.x - w8A.x) ^ 2 + (w8B.y - w8A.y) ^ 2 +
      (w8B.z - w8A.z) ^ 2) = 5
    exact hdist

end OrbitPropagator
